import Mathlib

/-!
Verification of the JobApply-AI-Bot content scripts against their
natural-language specification.

The development shallowly embeds the DOM-facing code of `src/content.js`,
`src/unnamed/part_000` (a variant content script) and the hydration logic of
`src/unnamed/part_001` (the popup app).  A document is modelled as a finite
association from CSS selector strings to elements (`document.querySelector`
is a lookup), an element carries its `textContent` (as a list of characters),
its `innerText` (as a string) and a flag recording whether calling `.click()`
on it throws.  The `async` functions of `content.js` each contain exactly one
`await` suspension point, so they are embedded as pure functions over the
document snapshot before and the snapshot after that suspension.
-/

/-- A DOM element as the scripts observe it: its text content (used by
`getSafeText` in `content.js`), its `innerText` (used by `getJobDetails` in
the variant script) and whether invoking `.click()` on it throws (e.g. an
`Element` that is not an `HTMLElement` has no `click` method). -/
structure Elem where
  textContent : List Char
  innerText : String
  clickThrows : Bool
deriving DecidableEq

/-- A document snapshot: a finite map from selector strings to the element
`document.querySelector` returns for that selector, plus
`window.location.href`. -/
structure Doc where
  entries : List (String × Elem)
  href : String

/-- Embedding of `document.querySelector(sel)`. -/
def Doc.query (d : Doc) (sel : String) : Option Elem :=
  (d.entries.find? (fun p => p.1 == sel)).map Prod.snd

/- ========================
   DOM Selectors (content.js, lines 31-66)
   ======================== -/

namespace SELECTORS

def TITLE : List String :=
  [".jobs-unified-top-card__job-title",
   ".job-details-jobs-unified-top-card__job-title",
   "[data-test-job-title]"]

def COMPANY : List String :=
  [".jobs-unified-top-card__company-name",
   ".job-details-jobs-unified-top-card__company-name",
   "[data-test-hiring-company-name]"]

def LOCATION : List String :=
  [".jobs-unified-top-card__bullet",
   ".job-details-jobs-unified-top-card__location",
   "[data-test-job-location]"]

def DESCRIPTION : List String :=
  [".jobs-description__content",
   ".job-details-jobs-description__content",
   "[data-test-job-description-text]"]

namespace BUTTONS

def SEE_MORE : List String :=
  ["button.jobs-description__see-more-button",
   "button.job-details-how-you-match__see-more"]

def APPLY : List String :=
  ["button.jobs-apply-button",
   "button.job-details-apply-button"]

def SUBMIT : List String :=
  ["button[aria-label=\"Submit application\"]",
   "button[data-test-modal-close-btn]"]

end BUTTONS

end SELECTORS

/-- Embedding of `findElement` (content.js, lines 68-74): try the candidate
selectors in priority order and return the first `querySelector` hit. -/
def findElement (selectors : List String) (d : Doc) : Option Elem :=
  match selectors with
  | [] => none
  | s :: rest =>
    match d.query s with
    | some e => some e
    | none => findElement rest d

/- ========================
   Text Normalizer (content.js, lines 76-77)
   ======================== -/

/-- The JavaScript `\s` whitespace class, restricted to the ASCII whitespace
characters (space, tab, line feed, vertical tab, form feed, carriage
return). -/
def isWs (c : Char) : Bool :=
  c == ' ' || c == '\t' || c == '\n' || c == '\r' ||
  c == Char.ofNat 11 || c == Char.ofNat 12

/-- Embedding of `String.prototype.trim`: drop leading and trailing
whitespace. -/
def trimChars (l : List Char) : List Char :=
  ((l.dropWhile isWs).reverse.dropWhile isWs).reverse

/-- Embedding of `.replace(/\s+/g, ' ')`: every maximal run of whitespace
characters becomes a single space.  A run is emitted at its final character:
while the next character is also whitespace the current one is dropped. -/
def collapseWs : List Char → List Char
  | [] => []
  | [c] => if isWs c then [' '] else [c]
  | a :: b :: rest =>
    if isWs a then
      if isWs b then collapseWs (b :: rest)
      else ' ' :: collapseWs (b :: rest)
    else a :: collapseWs (b :: rest)

/-- Embedding of `getSafeText` (content.js, lines 76-77):
`element?.textContent?.trim()?.replace(/\s+/g, ' ') || ''`.  The optional
chaining makes the function total on an absent element (it yields `''`), and
the source applies `trim` first, then the whitespace-collapsing replace. -/
def getSafeText (el : Option Elem) : List Char :=
  match el with
  | none => []
  | some e => collapseWs (trimChars e.textContent)

/-- Detector for a run of two or more adjacent whitespace characters. -/
def twoAdjacentWs : List Char → Bool
  | a :: b :: rest => (isWs a && isWs b) || twoAdjacentWs (b :: rest)
  | _ => false

/- ========================
   Extraction Pipeline (content.js, lines 82-114)
   ======================== -/

/-- Embedding of `expandDescription` (content.js, lines 82-89).  If a "see
more" button is found it is clicked (a click may throw, which propagates to
the caller) and the function waits 500ms before resolving; otherwise it
resolves immediately.  The `Bool` records whether the timed wait happened. -/
def expandDescription (d : Doc) : Except String Bool :=
  match findElement SELECTORS.BUTTONS.SEE_MORE d with
  | some b => if b.clickThrows then Except.error "click threw" else Except.ok true
  | none => Except.ok false

/-- The record literal `scrapeJobDetails` builds (content.js, lines 95-109). -/
structure JobRecord where
  title : List Char
  company : List Char
  location : List Char
  description : List Char
  url : List Char
  postedDate : List Char
deriving DecidableEq

/-- Result of `scrapeJobDetails`: either the job record or the catch-all
error object `{error: 'Failed to extract job details'}`. -/
inductive ScrapeResult where
  | record (r : JobRecord)
  | error (msg : String)
deriving DecidableEq

/-- Whether a `ScrapeResult` is a job record (as opposed to an error object). -/
def ScrapeResult.isRecord : ScrapeResult → Bool
  | .record _ => true
  | .error _ => false

/-- Embedding of `window.location.href.split('?')[0]` (content.js, line 104):
everything before the first `?`. -/
def stripQuery (s : String) : List Char :=
  s.toList.takeWhile (fun c => c ≠ '?')

/-- The combined selector string passed to `document.querySelector` for the
posted date (content.js, lines 105-108). -/
def postedDateSelector : String :=
  ".jobs-unified-top-card__posted-date, .job-details-jobs-unified-top-card__posted-date"

/-- Embedding of `scrapeJobDetails` (content.js, lines 91-114).  `d0` is the
document when `expandDescription` runs; `d1` is the document after the 500ms
settle wait (used only when the wait actually happened).  A throw from the
expand click is caught by the surrounding `try` and turned into
`{error: 'Failed to extract job details'}`. -/
def scrapeJobDetails (d0 d1 : Doc) : ScrapeResult :=
  match expandDescription d0 with
  | Except.error _ => ScrapeResult.error "Failed to extract job details"
  | Except.ok waited =>
    let d := if waited then d1 else d0
    ScrapeResult.record
      { title := getSafeText (findElement SELECTORS.TITLE d)
        company := getSafeText (findElement SELECTORS.COMPANY d)
        location := getSafeText (findElement SELECTORS.LOCATION d)
        description :=
          List.intercalate ['\n']
            [getSafeText (findElement SELECTORS.DESCRIPTION d),
             getSafeText (d.query ".jobs-description-details__list"),
             getSafeText (d.query ".job-details-how-you-match__skills-list")]
        url := stripQuery d.href
        postedDate := getSafeText (d.query postedDateSelector) }

/- ========================
   Interaction Sequencer (content.js, lines 116-136)
   ======================== -/

/-- Result of `handleApplication`: `{success: true}` or `{error: msg}`. -/
inductive ApplyResult where
  | success
  | error (msg : String)
deriving DecidableEq

/-- Whether an `ApplyResult` is an error object. -/
def ApplyResult.isErr : ApplyResult → Bool
  | .success => false
  | .error _ => true

/-- Embedding of `handleApplication` (content.js, lines 116-136).  `d0` is
the document when the apply button is located; `d1` is the document after the
2000ms wait, when the submit button is located.  A click that throws is
caught by the surrounding `try` and becomes
`{error: 'Application process failed'}`. -/
def handleApplication (d0 d1 : Doc) : ApplyResult :=
  match findElement SELECTORS.BUTTONS.APPLY d0 with
  | none => ApplyResult.error "Apply button not found"
  | some applyButton =>
    if applyButton.clickThrows then ApplyResult.error "Application process failed"
    else
      match findElement SELECTORS.BUTTONS.SUBMIT d1 with
      | some submitButton =>
        if submitButton.clickThrows then ApplyResult.error "Application process failed"
        else ApplyResult.success
      | none => ApplyResult.error "Submission failed"

/-- Instrumented `findElement`: identical control flow, but also returns the
list of selector strings actually passed to `document.querySelector`, in
order (the scan stops at the first hit). -/
def findElementT (selectors : List String) (d : Doc) : Option Elem × List String :=
  match selectors with
  | [] => (none, [])
  | s :: rest =>
    match d.query s with
    | some e => (some e, [s])
    | none =>
      let r := findElementT rest d
      (r.1, s :: r.2)

/-- Instrumented `handleApplication`: same control flow as
`handleApplication`, additionally returning the trace of every selector
queried during the run. -/
def handleApplicationTrace (d0 d1 : Doc) : ApplyResult × List String :=
  let a := findElementT SELECTORS.BUTTONS.APPLY d0
  match a.1 with
  | none => (ApplyResult.error "Apply button not found", a.2)
  | some applyButton =>
    if applyButton.clickThrows then (ApplyResult.error "Application process failed", a.2)
    else
      let s := findElementT SELECTORS.BUTTONS.SUBMIT d1
      match s.1 with
      | some submitButton =>
        if submitButton.clickThrows then (ApplyResult.error "Application process failed", a.2 ++ s.2)
        else (ApplyResult.success, a.2 ++ s.2)
      | none => (ApplyResult.error "Submission failed", a.2 ++ s.2)

/-- Number of locate passes `handleApplication` makes over the apply-button
SelectorSet: every such pass queries the set's first selector
`button.jobs-apply-button` exactly once, and no other SelectorSet in
`handleApplication` contains that string. -/
def applyLocateAttempts (d0 d1 : Doc) : Nat :=
  (handleApplicationTrace d0 d1).2.count "button.jobs-apply-button"

/- ========================
   Variant content script (src/unnamed/part_000)
   ======================== -/

namespace Variant

/-- The record literal `getJobDetails` builds (part_000, lines 4-12). -/
structure JobDetails where
  jobTitle : String
  company : String
  location : String
  jobDesc : String
  jobLink : String
deriving DecidableEq

/-- JavaScript `x || dflt` on a string/undefined left operand: `undefined`
and the empty string are falsy, so both fall through to the default. -/
def jsOr (o : Option Elem) (dflt : String) : String :=
  match o with
  | none => dflt
  | some e => if e.innerText = "" then dflt else e.innerText

/-- Embedding of `getJobDetails` (part_000, lines 4-12): each field is
`document.querySelector(sel)?.innerText || placeholder`, and `jobLink` is the
full `window.location.href`, query string and all. -/
def getJobDetails (d : Doc) : JobDetails :=
  { jobTitle := jsOr (d.query ".topcard__title") "Unknown Title"
    company := jsOr (d.query ".topcard__org-name-link") "Unknown Company"
    location := jsOr (d.query ".topcard__flavor") "Unknown Location"
    jobDesc := jsOr (d.query ".show-more-less-html") "No Description"
    jobLink := d.href }

/-- The comma selector list the auto-apply watcher polls for
(part_000, line 20). -/
def easyApplySelector : String :=
  "button[aria-label*=\"Easy Apply\"], button.jobs-apply-button"

/-- The fallback deadline after which the watcher disconnects itself
(part_000, line 31: `setTimeout(() => observer.disconnect(), 10000)`). -/
def fallbackTimeoutMs : Nat := 10000

/-- State of the single-shot MutationObserver set up by `attemptAutoApply`
(part_000, lines 19-31): whether the observer is still connected, how many
times its callback has run, and how many times the apply button was
clicked. -/
structure WatcherState where
  active : Bool
  invocations : Nat
  clicks : Nat
deriving DecidableEq

/-- Observer state right after `observer.observe(document.body, ...)`. -/
def initWatcher : WatcherState := { active := true, invocations := 0, clicks := 0 }

/-- Embedding of `observer.disconnect()`: per the MutationObserver contract,
it stops callback delivery and is a no-op on an already-disconnected
observer. -/
def disconnect (s : WatcherState) : WatcherState := { s with active := false }

/-- Embedding of one mutation-batch delivery against document snapshot `d`:
a disconnected observer's callback is not invoked; a connected one runs the
part_000 callback, which clicks the apply button and disconnects (single
shot) when the button is present, and otherwise leaves the observer
connected. -/
def onBatch (d : Doc) (s : WatcherState) : WatcherState :=
  if s.active then
    let s' : WatcherState := { s with invocations := s.invocations + 1 }
    match d.query easyApplySelector with
    | some _ => disconnect { s' with clicks := s'.clicks + 1 }
    | none => s'
  else s

/-- A whole watcher run: the mutation batches delivered before the
`fallbackTimeoutMs` deadline, followed by the fallback `disconnect`. -/
def runWatcher (batches : List Doc) : WatcherState :=
  disconnect (batches.foldl (fun s d => onBatch d s) initWatcher)

end Variant

/- ========================
   Popup app hydration (src/unnamed/part_001, lines 119-134)
   ======================== -/

namespace Popup

/-- The persisted `appState` blob, restricted to the fields the hydrate
effect consults.  `lastApplied` is the stored date abstracted to its calendar
day (the value `new Date(x).toDateString()` denotes); `none` is an unset
`lastApplied`. -/
structure AppState where
  numApplications : Nat
  remainingApplications : Nat
  creditsLeft : Nat
  lastApplied : Option Nat
deriving DecidableEq

/-- The two daily counters the hydrate effect computes. -/
structure Counters where
  creditsLeft : Nat
  remainingApplications : Nat
deriving DecidableEq

/-- Embedding of the hydrate `useEffect` (part_001, lines 119-134): with a
persisted `appState` present, `reset` is true when `lastApplied` is unset or
its calendar day differs from today's; on reset `creditsLeft` becomes 10 and
`remainingApplications` becomes the stored `numApplications`, otherwise both
keep their stored values. -/
def hydrate (st : AppState) (today : Nat) : Counters :=
  let reset : Bool :=
    match st.lastApplied with
    | none => true
    | some day => day != today
  { creditsLeft := if reset then 10 else st.creditsLeft
    remainingApplications := if reset then st.numApplications else st.remainingApplications }

end Popup

/- ========================
   Helper lemmas: whitespace normalization
   ======================== -/

/-- The first survivor of `dropWhile p` does not satisfy `p`. -/
theorem head?_dropWhile_not (p : Char → Bool) :
    ∀ (l : List Char) (c : Char), (l.dropWhile p).head? = some c → p c = false := by
  intro l
  induction l with
  | nil => intro c h; simp [List.dropWhile] at h
  | cons a t ih =>
    intro c h
    by_cases hp : p a
    · rw [List.dropWhile_cons_of_pos hp] at h
      exact ih c h
    · rw [List.dropWhile_cons_of_neg hp] at h
      simp only [List.head?_cons, Option.some.injEq] at h
      subst h
      exact Bool.eq_false_iff.mpr hp

/-- Dropping the head does not change `getLast?` of a list with a nonempty
tail. -/
theorem getLast?_cons_of_ne_nil (a : Char) (t : List Char) (ht : t ≠ []) :
    (a :: t).getLast? = t.getLast? := by
  cases t with
  | nil => exact absurd rfl ht
  | cons b l => exact List.getLast?_cons_cons

/-- When `dropWhile p` leaves anything, it leaves the original last element. -/
theorem getLast?_dropWhile (p : Char → Bool) :
    ∀ l : List Char, l.dropWhile p ≠ [] → (l.dropWhile p).getLast? = l.getLast? := by
  intro l
  induction l with
  | nil => intro h; simp [List.dropWhile] at h
  | cons a t ih =>
    intro hne
    by_cases hp : p a
    · rw [List.dropWhile_cons_of_pos hp] at hne ⊢
      have ht : t ≠ [] := by
        intro h
        subst h
        simp [List.dropWhile] at hne
      rw [ih hne, getLast?_cons_of_ne_nil a t ht]
    · rw [List.dropWhile_cons_of_neg hp]

/-- Collapsing a list whose head is not whitespace keeps that head. -/
theorem collapseWs_cons_notWs (b : Char) (t : List Char) (hb : isWs b = false) :
    collapseWs (b :: t) = b :: collapseWs t := by
  cases t with
  | nil => simp [collapseWs, hb]
  | cons x xs => simp [collapseWs, hb]

/-- Collapsing a nonempty list yields a nonempty list. -/
theorem collapseWs_ne_nil : ∀ l : List Char, l ≠ [] → collapseWs l ≠ [] := by
  intro l
  induction l using collapseWs.induct with
  | case1 => intro h; exact absurd rfl h
  | case2 c hc => intro _; simp [collapseWs, hc]
  | case3 c hc => intro _; simp [collapseWs, hc]
  | case4 a b rest ha hb ih =>
    intro _
    simpa [collapseWs, ha, hb] using ih (by simp)
  | case5 a b rest ha hb ih =>
    intro _
    simp [collapseWs, ha, hb]
  | case6 a b rest ha ih =>
    intro _
    simp [collapseWs, ha]

/-- The collapsed form of any list has no run of two adjacent whitespace
characters. -/
theorem twoAdjacentWs_collapseWs (l : List Char) :
    twoAdjacentWs (collapseWs l) = false := by
  induction l using collapseWs.induct with
  | case1 => simp [collapseWs, twoAdjacentWs]
  | case2 c hc => simp [collapseWs, hc, twoAdjacentWs]
  | case3 c hc => simp [collapseWs, hc, twoAdjacentWs]
  | case4 a b rest ha hb ih =>
    simpa [collapseWs, ha, hb] using ih
  | case5 a b rest ha hb ih =>
    have hb' : isWs b = false := Bool.eq_false_iff.mpr hb
    rw [show collapseWs (a :: b :: rest) = ' ' :: collapseWs (b :: rest) by
          simp [collapseWs, ha, hb]]
    rw [collapseWs_cons_notWs b rest hb'] at ih ⊢
    simpa [twoAdjacentWs, hb'] using ih
  | case6 a b rest ha ih =>
    have ha' : isWs a = false := Bool.eq_false_iff.mpr ha
    rw [show collapseWs (a :: b :: rest) = a :: collapseWs (b :: rest) by
          simp [collapseWs, ha]]
    cases hX : collapseWs (b :: rest) with
    | nil => simp [twoAdjacentWs]
    | cons d t =>
      rw [hX] at ih
      simpa [twoAdjacentWs, ha'] using ih

/-- Collapsing preserves a non-whitespace head. -/
theorem head?_collapseWs (l : List Char)
    (hl : ∀ x, l.head? = some x → isWs x = false) :
    ∀ c, (collapseWs l).head? = some c → isWs c = false := by
  intro c h
  cases l with
  | nil => simp [collapseWs] at h
  | cons d t =>
    have hd : isWs d = false := hl d (by simp)
    rw [collapseWs_cons_notWs d t hd] at h
    simp only [List.head?_cons, Option.some.injEq] at h
    subst h
    exact hd

/-- Collapsing preserves a non-whitespace last element. -/
theorem getLast?_collapseWs :
    ∀ l : List Char, (∀ x, l.getLast? = some x → isWs x = false) →
      ∀ c, (collapseWs l).getLast? = some c → isWs c = false := by
  intro l
  induction l using collapseWs.induct with
  | case1 => intro _ c h; simp [collapseWs] at h
  | case2 c0 hc0 =>
    intro hl c h
    exact absurd (hl c0 (by simp)) (by simpa using hc0)
  | case3 c0 hc0 =>
    intro hl c h
    rw [show collapseWs [c0] = [c0] by simp [collapseWs, hc0]] at h
    simp only [List.getLast?_singleton, Option.some.injEq] at h
    subst h
    exact Bool.eq_false_iff.mpr hc0
  | case4 a b rest ha hb ih =>
    intro hl c h
    rw [show collapseWs (a :: b :: rest) = collapseWs (b :: rest) by
          simp [collapseWs, ha, hb]] at h
    exact ih (fun x hx => hl x (by rw [List.getLast?_cons_cons]; exact hx)) c h
  | case5 a b rest ha hb ih =>
    intro hl c h
    rw [show collapseWs (a :: b :: rest) = ' ' :: collapseWs (b :: rest) by
          simp [collapseWs, ha, hb]] at h
    rw [getLast?_cons_of_ne_nil _ _ (collapseWs_ne_nil _ (by simp))] at h
    exact ih (fun x hx => hl x (by rw [List.getLast?_cons_cons]; exact hx)) c h
  | case6 a b rest ha ih =>
    intro hl c h
    rw [show collapseWs (a :: b :: rest) = a :: collapseWs (b :: rest) by
          simp [collapseWs, ha]] at h
    rw [getLast?_cons_of_ne_nil _ _ (collapseWs_ne_nil _ (by simp))] at h
    exact ih (fun x hx => hl x (by rw [List.getLast?_cons_cons]; exact hx)) c h

/-- The trimmed form of any list starts with a non-whitespace character, if
it starts at all. -/
theorem head?_trimChars (l : List Char) (c : Char)
    (h : (trimChars l).head? = some c) : isWs c = false := by
  unfold trimChars at h
  rw [List.head?_reverse] at h
  have hne : (l.dropWhile isWs).reverse.dropWhile isWs ≠ [] := by
    intro hnil
    rw [hnil] at h
    simp at h
  rw [getLast?_dropWhile isWs _ hne, List.getLast?_reverse] at h
  exact head?_dropWhile_not isWs _ c h

/-- The trimmed form of any list ends with a non-whitespace character, if it
is nonempty. -/
theorem getLast?_trimChars (l : List Char) (c : Char)
    (h : (trimChars l).getLast? = some c) : isWs c = false := by
  unfold trimChars at h
  rw [List.getLast?_reverse] at h
  exact head?_dropWhile_not isWs _ c h

/- ========================
   Claim C3: Element Locator priority order
   ======================== -/

/-- C3: for every SelectorSet and document, `findElement` returns the
element matched by the earliest candidate selector in priority order — never
an element of a later candidate when an earlier one matches — and returns
none when no candidate matches, in particular for the empty SelectorSet. -/
theorem findElement_c3 (sels : List String) (d : Doc) :
    findElement [] d = none ∧
    (∀ (i : Nat) (sel : String) (e : Elem),
       sels[i]? = some sel →
       (∀ (j : Nat) (sj : String), j < i → sels[j]? = some sj → d.query sj = none) →
       d.query sel = some e →
       findElement sels d = some e) ∧
    ((∀ s ∈ sels, d.query s = none) → findElement sels d = none) := by
  refine ⟨rfl, ?_, ?_⟩
  · induction sels with
    | nil => intro i sel e hi _ _; simp at hi
    | cons s rest ih =>
      intro i sel e hi hj hq
      cases i with
      | zero =>
        simp only [List.getElem?_cons_zero, Option.some.injEq] at hi
        subst hi
        simp [findElement, hq]
      | succ k =>
        have hs0 : d.query s = none := hj 0 s (Nat.succ_pos k) (by simp)
        rw [List.getElem?_cons_succ] at hi
        have hrest := ih k sel e hi (fun j sj hlt hjs =>
          hj (j + 1) sj (Nat.succ_lt_succ hlt) (by simpa using hjs)) hq
        simp [findElement, hs0, hrest]
  · induction sels with
    | nil => intro _; rfl
    | cons s rest ih =>
      intro h
      have hs : d.query s = none := h s (by simp)
      have hr := ih (fun x hx => h x (List.mem_cons_of_mem _ hx))
      simp [findElement, hs, hr]

/-- Concrete document whose only entry matches the second company selector. -/
def companyDoc : Doc :=
  { entries := [(".job-details-jobs-unified-top-card__company-name",
      { textContent := "Acme Corp".toList, innerText := "Acme Corp", clickThrows := false })],
    href := "https://www.linkedin.com/jobs/view/11" }

/-- Witness for C3 at a concrete document: with the first company selector
unmatched, `findElement` returns the second candidate's element. -/
theorem findElement_c3_witness :
    findElement SELECTORS.COMPANY companyDoc =
      some { textContent := "Acme Corp".toList, innerText := "Acme Corp", clickThrows := false } :=
  (findElement_c3 SELECTORS.COMPANY companyDoc).2.1 1
    ".job-details-jobs-unified-top-card__company-name" _
    (by decide)
    (fun j sj hj hjs => by
      have hj0 : j = 0 := Nat.lt_one_iff.mp hj
      subst hj0
      simp only [SELECTORS.COMPANY, List.getElem?_cons_zero, Option.some.injEq] at hjs
      subst hjs
      decide)
    (by decide)

/- ========================
   Claim C4: Text Normalizer contract
   ======================== -/

/-- C4: for every input (an element or none), `getSafeText` is total (the
embedding is a Lean function, so it cannot throw), returns the empty string
for none and for an element with no text, and its output never contains two
adjacent whitespace characters, never starts with whitespace, and never ends
with whitespace. -/
theorem getSafeText_c4 (el : Option Elem) :
    getSafeText none = [] ∧
    (∀ e : Elem, e.textContent = [] → getSafeText (some e) = []) ∧
    twoAdjacentWs (getSafeText el) = false ∧
    (∀ c, (getSafeText el).head? = some c → isWs c = false) ∧
    (∀ c, (getSafeText el).getLast? = some c → isWs c = false) := by
  refine ⟨rfl, ?_, ?_, ?_, ?_⟩
  · intro e he
    simp [getSafeText, he, trimChars, List.dropWhile, collapseWs]
  · cases el with
    | none => simp [getSafeText, twoAdjacentWs]
    | some e => exact twoAdjacentWs_collapseWs (trimChars e.textContent)
  · cases el with
    | none => intro c h; simp [getSafeText] at h
    | some e =>
      intro c h
      exact head?_collapseWs (trimChars e.textContent)
        (fun x hx => head?_trimChars e.textContent x hx) c h
  · cases el with
    | none => intro c h; simp [getSafeText] at h
    | some e =>
      intro c h
      exact getLast?_collapseWs (trimChars e.textContent)
        (fun x hx => getLast?_trimChars e.textContent x hx) c h

/-- An element whose text has leading, trailing and internal whitespace
runs. -/
def wsElem : Elem :=
  { textContent := [' ', ' ', 'a', '\t', '\t', 'b', ' ', '\n'],
    innerText := "", clickThrows := false }

/-- Witness for C4 at a concrete element: the normalized text is `a b`, with
no whitespace run and a non-whitespace first character. -/
theorem getSafeText_c4_witness :
    twoAdjacentWs (getSafeText (some wsElem)) = false ∧ isWs 'a' = false :=
  ⟨(getSafeText_c4 (some wsElem)).2.2.1,
   (getSafeText_c4 (some wsElem)).2.2.2.1 'a' (by decide)⟩

/- ========================
   Trace lemmas for the Interaction Sequencer
   ======================== -/

/-- The instrumented locator computes the same element as `findElement`. -/
theorem findElementT_fst (sels : List String) (d : Doc) :
    (findElementT sels d).1 = findElement sels d := by
  induction sels with
  | nil => rfl
  | cons s rest ih =>
    cases hq : d.query s with
    | some e => simp [findElementT, findElement, hq]
    | none => simp [findElementT, findElement, hq, ih]

/-- Every selector the instrumented locator queries comes from its
SelectorSet. -/
theorem findElementT_trace_subset (sels : List String) (d : Doc) :
    ∀ s ∈ (findElementT sels d).2, s ∈ sels := by
  induction sels with
  | nil => intro s hs; simp [findElementT] at hs
  | cons a rest ih =>
    intro s hs
    cases hq : d.query a with
    | some e =>
      rw [show findElementT (a :: rest) d = (some e, [a]) by simp [findElementT, hq]] at hs
      simp at hs
      simp [hs]
    | none =>
      rw [show findElementT (a :: rest) d = ((findElementT rest d).1, a :: (findElementT rest d).2) by
            simp [findElementT, hq]] at hs
      rcases List.mem_cons.mp hs with h | h
      · simp [h]
      · exact List.mem_cons_of_mem _ (ih s h)

/-- When no candidate matches, the instrumented locator queries every
selector of the set, once each, in order. -/
theorem findElementT_none (sels : List String) (d : Doc) :
    findElement sels d = none → findElementT sels d = (none, sels) := by
  induction sels with
  | nil => intro _; rfl
  | cons s rest ih =>
    intro h
    cases hq : d.query s with
    | some e => simp [findElement, hq] at h
    | none =>
      have hrest : findElement rest d = none := by
        simpa [findElement, hq] using h
      simp [findElementT, hq, ih hrest]

/-- When step 0 of `handleApplication` fails — the apply button is absent,
or clicking it throws — the run ends with the step-0 error and the trace is
exactly the selectors queried while locating the apply button. -/
theorem handleApplicationTrace_step0_fails (d0 d1 : Doc) :
    (findElement SELECTORS.BUTTONS.APPLY d0 = none →
       handleApplicationTrace d0 d1 =
         (ApplyResult.error "Apply button not found",
          (findElementT SELECTORS.BUTTONS.APPLY d0).2)) ∧
    (∀ b : Elem, findElement SELECTORS.BUTTONS.APPLY d0 = some b → b.clickThrows = true →
       handleApplicationTrace d0 d1 =
         (ApplyResult.error "Application process failed",
          (findElementT SELECTORS.BUTTONS.APPLY d0).2)) := by
  have hfst := findElementT_fst SELECTORS.BUTTONS.APPLY d0
  constructor
  · intro h
    have h1 : (findElementT SELECTORS.BUTTONS.APPLY d0).1 = none := hfst.trans h
    simp [handleApplicationTrace, h1]
  · intro b hb hbt
    have h1 : (findElementT SELECTORS.BUTTONS.APPLY d0).1 = some b := hfst.trans hb
    simp [handleApplicationTrace, h1, hbt]

/- ========================
   Claim C1: retry budget (corrected)
   ======================== -/

/-- A document with no matching elements at all, whose URL carries a query
string. -/
def emptyDoc : Doc :=
  { entries := [], href := "https://www.linkedin.com/jobs/view/123?refId=abc" }

/-- C1 counterexample: on a document where the apply button never appears,
`handleApplication` performs exactly one locate pass over the apply-button
SelectorSet — not the three attempts the claim states — and terminates with
`{error: 'Apply button not found'}`. -/
theorem handleApplication_c1_counterexample :
    applyLocateAttempts emptyDoc emptyDoc = 1 ∧
    ¬ applyLocateAttempts emptyDoc emptyDoc = 3 ∧
    handleApplication emptyDoc emptyDoc = ApplyResult.error "Apply button not found" := by
  refine ⟨by decide, by decide, by decide⟩

/-- C1 amended: `handleApplication` has no retry budget at all.  For every
pair of document snapshots in which the apply button is absent, it performs
exactly one locate attempt over the apply SelectorSet and terminates
immediately with the element-not-found error `{error: 'Apply button not
found'}` at step 0. -/
theorem handleApplication_c1 (d0 d1 : Doc)
    (h : findElement SELECTORS.BUTTONS.APPLY d0 = none) :
    applyLocateAttempts d0 d1 = 1 ∧
    handleApplication d0 d1 = ApplyResult.error "Apply button not found" := by
  constructor
  · unfold applyLocateAttempts
    rw [(handleApplicationTrace_step0_fails d0 d1).1 h, findElementT_none _ _ h]
    decide
  · simp [handleApplication, h]

/-- Witness for the amended C1 at a concrete document. -/
theorem handleApplication_c1_witness :
    applyLocateAttempts emptyDoc emptyDoc = 1 ∧
    handleApplication emptyDoc emptyDoc = ApplyResult.error "Apply button not found" :=
  handleApplication_c1 emptyDoc emptyDoc (by decide)

/- ========================
   Claim C2: best-effort expand (corrected)
   ======================== -/

/-- A document whose "see more" button throws when clicked (for instance a
matching element that is not an `HTMLElement` and so has no `click`
method). -/
def throwingSeeMoreDoc : Doc :=
  { entries := [("button.jobs-description__see-more-button",
      { textContent := "See more".toList, innerText := "See more", clickThrows := true })],
    href := "https://www.linkedin.com/jobs/view/9?x=1" }

/-- C2 counterexample: when the expand click throws, `scrapeJobDetails` does
not return a JobRecord — the catch block converts the failure into the
extraction error object `{error: 'Failed to extract job details'}`. -/
theorem scrapeJobDetails_c2_counterexample :
    scrapeJobDetails throwingSeeMoreDoc throwingSeeMoreDoc =
      ScrapeResult.error "Failed to extract job details" ∧
    (scrapeJobDetails throwingSeeMoreDoc throwingSeeMoreDoc).isRecord = false := by
  refine ⟨by decide, by decide⟩

/-- C2 amended: extraction returns a JobRecord when the "see more"
affordance is absent (absence is a normal case, not an error) and when it is
present and its click succeeds; but when the expand click throws, extraction
returns the error object `{error: 'Failed to extract job details'}` instead
of a JobRecord. -/
theorem scrapeJobDetails_c2 (d0 d1 : Doc) :
    (findElement SELECTORS.BUTTONS.SEE_MORE d0 = none →
       (scrapeJobDetails d0 d1).isRecord = true) ∧
    (∀ b : Elem, findElement SELECTORS.BUTTONS.SEE_MORE d0 = some b →
       b.clickThrows = false → (scrapeJobDetails d0 d1).isRecord = true) ∧
    (∀ b : Elem, findElement SELECTORS.BUTTONS.SEE_MORE d0 = some b →
       b.clickThrows = true →
       scrapeJobDetails d0 d1 = ScrapeResult.error "Failed to extract job details") := by
  refine ⟨?_, ?_, ?_⟩
  · intro h
    simp [scrapeJobDetails, expandDescription, h, ScrapeResult.isRecord]
  · intro b hb hbt
    simp [scrapeJobDetails, expandDescription, hb, hbt, ScrapeResult.isRecord]
  · intro b hb hbt
    simp [scrapeJobDetails, expandDescription, hb, hbt]

/-- Witness for the amended C2 at a concrete document lacking the "see more"
affordance. -/
theorem scrapeJobDetails_c2_witness :
    (scrapeJobDetails emptyDoc emptyDoc).isRecord = true :=
  (scrapeJobDetails_c2 emptyDoc emptyDoc).1 (by decide)

/- ========================
   Claim C5: extraction scenario (corrected)
   ======================== -/

/-- Joining the three description sources when only the first yields text:
the result is that text followed by two newline separators. -/
theorem intercalate_description (x : List Char) :
    List.intercalate ['\n'] [x, [], []] = x ++ ['\n', '\n'] := by
  simp [List.intercalate, List.intersperse]

/-- The matched title element of the C5 scenario. -/
def staffTitleElem : Elem :=
  { textContent := "Staff Engineer".toList, innerText := "Staff Engineer", clickThrows := false }

/-- The matched description element of the C5 scenario. -/
def staffDescElem : Elem :=
  { textContent := "Great role".toList, innerText := "Great role", clickThrows := false }

/-- The C5 scenario document: title and description match, nothing else
does, and the page URL carries a query string. -/
def staffDoc : Doc :=
  { entries := [(".jobs-unified-top-card__job-title", staffTitleElem),
                (".jobs-description__content", staffDescElem)],
    href := "https://www.linkedin.com/jobs/view/42?refId=abc" }

/-- C5 counterexample: on the scenario document the record's description is
the extracted text followed by two newlines (the `join('\n')` over the three
description sources), not the extracted text itself, and the record carries
an empty `postedDate` scraped from the page rather than any non-empty
capture timestamp. -/
theorem scrapeJobDetails_c5_counterexample :
    scrapeJobDetails staffDoc staffDoc = ScrapeResult.record
      { title := "Staff Engineer".toList
        company := []
        location := []
        description := "Great role\n\n".toList
        url := "https://www.linkedin.com/jobs/view/42".toList
        postedDate := [] } ∧
    ¬ "Great role\n\n".toList = "Great role".toList ∧
    ¬ ([] : List Char) ≠ [] := by
  refine ⟨by decide, by decide, by decide⟩

/-- C5 amended: in the scenario — title selector yields "Staff Engineer",
no company or location selector matches, the first description selector
matches, the auxiliary description lists, posted-date element and "see more"
button are absent — extraction yields a record with title "Staff Engineer",
empty company and location, description equal to the normalized extracted
text followed by two newlines, url equal to the page URL with its query
string stripped, and an empty postedDate field (the record has no capture
timestamp field at all). -/
theorem scrapeJobDetails_c5 (d : Doc) (tEl dEl : Elem)
    (ht : d.query ".jobs-unified-top-card__job-title" = some tEl)
    (htText : tEl.textContent = "Staff Engineer".toList)
    (hc1 : d.query ".jobs-unified-top-card__company-name" = none)
    (hc2 : d.query ".job-details-jobs-unified-top-card__company-name" = none)
    (hc3 : d.query "[data-test-hiring-company-name]" = none)
    (hl1 : d.query ".jobs-unified-top-card__bullet" = none)
    (hl2 : d.query ".job-details-jobs-unified-top-card__location" = none)
    (hl3 : d.query "[data-test-job-location]" = none)
    (hd1 : d.query ".jobs-description__content" = some dEl)
    (hx1 : d.query ".jobs-description-details__list" = none)
    (hx2 : d.query ".job-details-how-you-match__skills-list" = none)
    (hp : d.query postedDateSelector = none)
    (hsm1 : d.query "button.jobs-description__see-more-button" = none)
    (hsm2 : d.query "button.job-details-how-you-match__see-more" = none) :
    scrapeJobDetails d d = ScrapeResult.record
      { title := "Staff Engineer".toList
        company := []
        location := []
        description := collapseWs (trimChars dEl.textContent) ++ ['\n', '\n']
        url := stripQuery d.href
        postedDate := [] } := by
  have hexp : expandDescription d = Except.ok false := by
    simp [expandDescription, findElement, SELECTORS.BUTTONS.SEE_MORE, hsm1, hsm2]
  simp only [scrapeJobDetails, hexp, if_neg, Bool.false_eq_true, ite_false]
  congr 1
  have hTitle : findElement SELECTORS.TITLE d = some tEl := by
    simp [findElement, SELECTORS.TITLE, ht]
  have hCompany : findElement SELECTORS.COMPANY d = none := by
    simp [findElement, SELECTORS.COMPANY, hc1, hc2, hc3]
  have hLocation : findElement SELECTORS.LOCATION d = none := by
    simp [findElement, SELECTORS.LOCATION, hl1, hl2, hl3]
  have hDesc : findElement SELECTORS.DESCRIPTION d = some dEl := by
    simp [findElement, SELECTORS.DESCRIPTION, hd1]
  rw [hTitle, hCompany, hLocation, hDesc, hx1, hx2, hp]
  simp only [getSafeText, htText, intercalate_description]
  congr 1

/-- Witness for the amended C5 at the concrete scenario document. -/
theorem scrapeJobDetails_c5_witness :
    scrapeJobDetails staffDoc staffDoc = ScrapeResult.record
      { title := "Staff Engineer".toList
        company := []
        location := []
        description := "Great role\n\n".toList
        url := "https://www.linkedin.com/jobs/view/42".toList
        postedDate := [] } :=
  scrapeJobDetails_c5 staffDoc staffTitleElem staffDescElem
    (by decide) (by decide) (by decide) (by decide) (by decide) (by decide)
    (by decide) (by decide) (by decide) (by decide) (by decide) (by decide)
    (by decide) (by decide)

/- ========================
   Claim C6: missing submit button resolves to an error
   ======================== -/

/-- C6: whenever the apply button is present (and its click does not throw)
but no submit button has appeared by the time the post-click wait elapses,
`handleApplication` resolves to the error object `{error: 'Submission
failed'}` — a Failed outcome, not a hang (the embedding is a total
function, so every run terminates with a result). -/
theorem handleApplication_c6 (d0 d1 : Doc) (b : Elem)
    (happly : findElement SELECTORS.BUTTONS.APPLY d0 = some b)
    (hclick : b.clickThrows = false)
    (hsubmit : findElement SELECTORS.BUTTONS.SUBMIT d1 = none) :
    handleApplication d0 d1 = ApplyResult.error "Submission failed" ∧
    (handleApplication d0 d1).isErr = true := by
  have h : handleApplication d0 d1 = ApplyResult.error "Submission failed" := by
    simp [handleApplication, happly, hclick, hsubmit]
  exact ⟨h, by rw [h]; rfl⟩

/-- A document with a clickable apply button and no submit button. -/
def applyOnlyDoc : Doc :=
  { entries := [("button.jobs-apply-button",
      { textContent := "Easy Apply".toList, innerText := "Easy Apply", clickThrows := false })],
    href := "https://www.linkedin.com/jobs/view/7" }

/-- Witness for C6 at a concrete document. -/
theorem handleApplication_c6_witness :
    handleApplication applyOnlyDoc applyOnlyDoc = ApplyResult.error "Submission failed" ∧
    (handleApplication applyOnlyDoc applyOnlyDoc).isErr = true :=
  handleApplication_c6 applyOnlyDoc applyOnlyDoc
    { textContent := "Easy Apply".toList, innerText := "Easy Apply", clickThrows := false }
    (by decide) (by decide) (by decide)

/- ========================
   Claim C7: step ordering — no submit query after step-0 failure
   ======================== -/

/-- C7: whenever step 0 of `handleApplication` fails — the apply button is
never located, or clicking it throws — the run terminates with a Failed
outcome and no submit-button selector is ever passed to
`document.querySelector`. -/
theorem handleApplication_c7 (d0 d1 : Doc)
    (h : findElement SELECTORS.BUTTONS.APPLY d0 = none ∨
         ∃ b : Elem, findElement SELECTORS.BUTTONS.APPLY d0 = some b ∧ b.clickThrows = true) :
    (handleApplicationTrace d0 d1).1.isErr = true ∧
    ∀ s ∈ SELECTORS.BUTTONS.SUBMIT, s ∉ (handleApplicationTrace d0 d1).2 := by
  have hdisj : ∀ s ∈ SELECTORS.BUTTONS.SUBMIT, s ∉ SELECTORS.BUTTONS.APPLY := by decide
  have hsub := findElementT_trace_subset SELECTORS.BUTTONS.APPLY d0
  have htr : handleApplicationTrace d0 d1 =
      ((handleApplicationTrace d0 d1).1, (findElementT SELECTORS.BUTTONS.APPLY d0).2) ∧
      (handleApplicationTrace d0 d1).1.isErr = true := by
    rcases h with hnone | ⟨b, hb, hbt⟩
    · rw [(handleApplicationTrace_step0_fails d0 d1).1 hnone]
      exact ⟨rfl, rfl⟩
    · rw [(handleApplicationTrace_step0_fails d0 d1).2 b hb hbt]
      exact ⟨rfl, rfl⟩
  refine ⟨htr.2, ?_⟩
  intro s hs hmem
  have : (handleApplicationTrace d0 d1).2 = (findElementT SELECTORS.BUTTONS.APPLY d0).2 :=
    congrArg Prod.snd htr.1
  rw [this] at hmem
  exact hdisj s hs (hsub s hmem)

/-- Witness for C7 at a concrete document with no apply button: the first
submit selector is never queried. -/
theorem handleApplication_c7_witness :
    "button[aria-label=\"Submit application\"]" ∉ (handleApplicationTrace emptyDoc emptyDoc).2 :=
  (handleApplication_c7 emptyDoc emptyDoc (Or.inl (by decide))).2 _ (by decide)

/- ========================
   Claim C8: single-shot Mutation Watcher
   ======================== -/

/-- Folding no-match batches over the watcher changes neither its
connectivity nor its click count. -/
theorem onBatch_foldl_noMatch :
    ∀ (batches : List Doc) (s : Variant.WatcherState),
      (∀ x ∈ batches, x.query Variant.easyApplySelector = none) →
      (batches.foldl (fun st d => Variant.onBatch d st) s).active = s.active ∧
      (batches.foldl (fun st d => Variant.onBatch d st) s).clicks = s.clicks := by
  intro batches
  induction batches with
  | nil => intro s _; exact ⟨rfl, rfl⟩
  | cons d rest ih =>
    intro s h
    have hd : d.query Variant.easyApplySelector = none := h d (by simp)
    have hstep : (Variant.onBatch d s).active = s.active ∧
        (Variant.onBatch d s).clicks = s.clicks := by
      unfold Variant.onBatch
      by_cases hs : s.active <;> simp [hs, hd]
    obtain ⟨ha, hc⟩ := ih (Variant.onBatch d s) (fun x hx => h x (List.mem_cons_of_mem _ hx))
    rw [List.foldl_cons]
    exact ⟨ha.trans hstep.1, hc.trans hstep.2⟩

/-- C8: the single-shot watcher's cancel is idempotent (disconnecting twice
equals disconnecting once, and a mutation batch delivered to a disconnected
watcher leaves it untouched — its callback is not invoked again), and when
the awaited apply button never appears in any delivered batch, the run ends
self-cancelled by the 10000ms fallback deadline with zero clicks. -/
theorem watcher_c8 (s : Variant.WatcherState) (d : Doc) (batches : List Doc) :
    Variant.disconnect (Variant.disconnect s) = Variant.disconnect s ∧
    Variant.onBatch d (Variant.disconnect s) = Variant.disconnect s ∧
    ((∀ x ∈ batches, x.query Variant.easyApplySelector = none) →
       (Variant.runWatcher batches).active = false ∧
       (Variant.runWatcher batches).clicks = 0) ∧
    Variant.fallbackTimeoutMs = 10000 := by
  refine ⟨rfl, rfl, ?_, rfl⟩
  intro h
  have := onBatch_foldl_noMatch batches Variant.initWatcher h
  unfold Variant.runWatcher Variant.disconnect
  exact ⟨rfl, this.2⟩

/-- Witness for C8 at a concrete run: one no-match batch over the empty
document. -/
theorem watcher_c8_witness :
    (Variant.runWatcher [emptyDoc]).active = false ∧
    (Variant.runWatcher [emptyDoc]).clicks = 0 :=
  (watcher_c8 Variant.initWatcher emptyDoc [emptyDoc]).2.2.1 (by decide)

/- ========================
   Claim C9: daily-counter reset on hydrate
   ======================== -/

/-- C9: loading a persisted configuration resets `creditsLeft` to the daily
maximum 10 and `remainingApplications` to the stored `numApplications`
exactly when `lastApplied` is unset or its calendar day differs from today;
when `lastApplied` is today's day, both counters keep their stored values. -/
theorem hydrate_c9 (st : Popup.AppState) (today : Nat) :
    ((st.lastApplied = none ∨ ¬ st.lastApplied = some today) →
       Popup.hydrate st today =
         { creditsLeft := 10, remainingApplications := st.numApplications }) ∧
    (st.lastApplied = some today →
       Popup.hydrate st today =
         { creditsLeft := st.creditsLeft,
           remainingApplications := st.remainingApplications }) := by
  constructor
  · rintro (h | h)
    · simp [Popup.hydrate, h]
    · cases hl : st.lastApplied with
      | none => simp [Popup.hydrate, hl]
      | some day =>
        have hne : day ≠ today := by
          intro heq
          exact h (heq ▸ hl)
        simp [Popup.hydrate, hl, hne]
  · intro h
    simp [Popup.hydrate, h]

/-- A persisted state whose `lastApplied` day (99) is not today (100). -/
def yesterdayState : Popup.AppState :=
  { numApplications := 7, remainingApplications := 2, creditsLeft := 3, lastApplied := some 99 }

/-- Witness for C9: hydrating the stale state on day 100 resets the
counters. -/
theorem hydrate_c9_witness :
    Popup.hydrate yesterdayState 100 = { creditsLeft := 10, remainingApplications := 7 } :=
  (hydrate_c9 yesterdayState 100).1 (Or.inr (by decide))

/- ========================
   Claim C10: variant extraction placeholders and full URL
   ======================== -/

/-- C10: in the variant content script's `getJobDetails`, every field whose
selector matches nothing is set to its fixed placeholder string — which is
never the empty string — and `jobLink` is the full page URL with any query
string retained. -/
theorem getJobDetails_c10 (d : Doc) :
    (d.query ".topcard__title" = none →
       (Variant.getJobDetails d).jobTitle = "Unknown Title") ∧
    (d.query ".topcard__org-name-link" = none →
       (Variant.getJobDetails d).company = "Unknown Company") ∧
    (d.query ".topcard__flavor" = none →
       (Variant.getJobDetails d).location = "Unknown Location") ∧
    (d.query ".show-more-less-html" = none →
       (Variant.getJobDetails d).jobDesc = "No Description") ∧
    (Variant.getJobDetails d).jobLink = d.href ∧
    ¬ "Unknown Title" = "" ∧ ¬ "Unknown Company" = "" ∧
    ¬ "Unknown Location" = "" ∧ ¬ "No Description" = "" := by
  refine ⟨?_, ?_, ?_, ?_, rfl, by decide, by decide, by decide, by decide⟩ <;>
    intro h <;> simp [Variant.getJobDetails, Variant.jsOr, h]

/-- A document with no matching elements whose URL carries a query string. -/
def trackedDoc : Doc :=
  { entries := [], href := "https://www.linkedin.com/jobs/view/5?trk=feed" }

/-- Witness for C10 at a concrete document: the title placeholder is used
and the query string survives in `jobLink`. -/
theorem getJobDetails_c10_witness :
    (Variant.getJobDetails trackedDoc).jobTitle = "Unknown Title" ∧
    (Variant.getJobDetails trackedDoc).jobLink = "https://www.linkedin.com/jobs/view/5?trk=feed" :=
  ⟨(getJobDetails_c10 trackedDoc).1 (by decide),
   (getJobDetails_c10 trackedDoc).2.2.2.2.1⟩
